import Mathlib

/-!
Verification of the Music-Combinators backend core against its
natural-language specification.

The JavaScript services are shallowly embedded as pure Lean functions over
explicit database states.  Each service call is modelled as a function from
the state it observes to the state it leaves behind plus an `Except` result
mirroring the thrown error (JavaScript exceptions do not roll back database
writes, so state and result are returned as a pair where that matters).
External fallible collaborators (the relational store on specific writes,
the object-storage gateway, the platform URL parser) are modelled by
explicit oracle parameters.
-/

namespace MusicCombinators

/-- Error taxonomy mirroring the classes thrown by the source
(`ValidationError`, `NotFoundError`, `ConflictError`, `AppError(msg, status)`
and plain `Error`).  The class `utils/errors.js` itself is not in the
sources; the constructors are modelled from the spec's §7 taxonomy, while
which constructor each service throws is taken from the service code. -/
inductive JsError
  | validationErr (msg : String)
  | notFoundErr (msg : String)
  | conflictErr (msg : String)
  | appErr (msg : String) (status : Nat)
  | genericErr (msg : String)
deriving DecidableEq, Repr

/-- Whether an error is a `NotFoundError` (HTTP 404 in the spec taxonomy). -/
def JsError.isNotFound : JsError → Bool
  | .notFoundErr _ => true
  | _ => false

/-- Whether an error is a `ValidationError` (HTTP 400 in the spec taxonomy). -/
def JsError.isValidation : JsError → Bool
  | .validationErr _ => true
  | _ => false

/-- Whether an error is a `ConflictError` (HTTP 409 in the spec taxonomy). -/
def JsError.isConflict : JsError → Bool
  | .conflictErr _ => true
  | _ => false

/-- `users.role` enum from the schema. -/
inductive Role
  | listener
  | creator
  | admin
deriving DecidableEq, Repr

/-- `users.status` enum from the schema. -/
inductive UserStatus
  | waitlisted
  | active
  | banned
deriving DecidableEq, Repr

/-- `creator_applications.status` enum from the schema. -/
inductive AppStatus
  | pending
  | approved
  | rejected
deriving DecidableEq, Repr

/-! ## Media validation (`storageService.validateFile`) -/

/-- Upload categories used by `storageService`. -/
inductive FileCategory
  | audio
  | video
  | image
deriving DecidableEq, Repr

/-- `ALLOWED_TYPES` from `storageService`. -/
def ALLOWED_TYPES : FileCategory → List String
  | .audio => ["audio/mpeg", "audio/mp3", "audio/wav", "audio/ogg"]
  | .video => ["video/mp4", "video/webm", "video/ogg"]
  | .image => ["image/jpeg", "image/jpg", "image/png", "image/webp"]

/-- `MAX_SIZES` from `storageService` (bytes). -/
def MAX_SIZES : FileCategory → Nat
  | .audio => 50 * 1024 * 1024
  | .video => 100 * 1024 * 1024
  | .image => 5 * 1024 * 1024

/-- A multer file object as far as `validateFile` inspects it:
presence of a `buffer`, the declared MIME type and the size in bytes. -/
structure UploadFile where
  hasBuffer : Bool
  mimetype : String
  size : Nat
deriving DecidableEq, Repr

/-- `storageService.validateFile(file, category)`: rejects a missing
file/buffer, a MIME type outside `ALLOWED_TYPES[category]`, and a size
above `MAX_SIZES[category]`, each with a `ValidationError`. -/
def validateFile (file : Option UploadFile) (category : FileCategory) :
    Except JsError Unit :=
  match file with
  | none => .error (.validationErr "No file provided")
  | some f =>
    if !f.hasBuffer then
      .error (.validationErr "No file provided")
    else if f.mimetype ∉ ALLOWED_TYPES category then
      .error (.validationErr "Invalid file type")
    else if f.size > MAX_SIZES category then
      .error (.validationErr "File size exceeds limit")
    else
      .ok ()

/-- The category constraints exactly as the spec states them (§6): audio at
most 15MB MIME mpeg, video at most 50MB MIME mp4, image at most 5MB MIME
jpeg/png/webp.  This definition follows the spec's words, for comparison
with `validateFile`, which is translated from the source. -/
def specMaxSize : FileCategory → Nat
  | .audio => 15 * 1024 * 1024
  | .video => 50 * 1024 * 1024
  | .image => 5 * 1024 * 1024

/-- Spec-side MIME whitelist (§6), for comparison with the source's
`ALLOWED_TYPES`. -/
def specAllowedMime : FileCategory → List String
  | .audio => ["audio/mpeg"]
  | .video => ["video/mp4"]
  | .image => ["image/jpeg", "image/png", "image/webp"]

/-- Spec-side acceptance predicate for a media payload, from the claim's
words. -/
def specAcceptsFile (f : UploadFile) (c : FileCategory) : Prop :=
  f.size ≤ specMaxSize c ∧ f.mimetype ∈ specAllowedMime c

/-- Executable model of JavaScript's `String.prototype.trim`: drop leading
and trailing whitespace.  (Structural recursion, unlike `String.trim`, so
concrete instances reduce in the kernel.) -/
def strTrim (s : String) : String :=
  ⟨((s.data.dropWhile Char.isWhitespace).reverse.dropWhile Char.isWhitespace).reverse⟩

/-! ## Creator applications (`applicationService`, `applicationController`) -/

/-- A row of `creator_applications` as the services read and write it. -/
structure CreatorApplication where
  id : Nat
  userId : Nat
  artistName : String
  portfolioUrl : Option String
  applicationReason : String
  sampleTracks : List String
  status : AppStatus
  submittedAt : Nat
  reviewedAt : Option Nat
  reviewedBy : Option Nat
  adminNotes : Option String
deriving DecidableEq, Repr

/-- The request body fields `submitApplication` reads. -/
structure SubmitData where
  artist_name : String
  portfolio_url : Option String
  application_reason : String
  sample_tracks : Option (List String)
deriving DecidableEq, Repr

/-- The existing-application lookup of `submitCreatorApplication`: first
row for this user with status pending or approved. -/
def findExistingApplication (apps : List CreatorApplication) (userId : Nat) :
    Option CreatorApplication :=
  apps.find? (fun a =>
    decide (a.userId = userId ∧ (a.status = .pending ∨ a.status = .approved)))

/-- The row inserted by `submitCreatorApplication` (with the trimming the
controller applies before calling the service). -/
def newApplication (userId nextId now : Nat) (d : SubmitData) : CreatorApplication :=
  { id := nextId
    userId := userId
    artistName := strTrim d.artist_name
    portfolioUrl :=
      match d.portfolio_url with
      | some u => if strTrim u = "" then none else some (strTrim u)
      | none => none
    applicationReason := strTrim d.application_reason
    sampleTracks := d.sample_tracks.getD []
    status := .pending
    submittedAt := now
    reviewedAt := none
    reviewedBy := none
    adminNotes := none }

/-- `applicationController.submitApplication` composed with
`applicationService.submitCreatorApplication`: required-field and length
validation, optional URL validation (the platform URL parser is the
`isValidUrl` parameter), the duplicate-application check, then the insert
of a pending row.  `now` is the submission timestamp and `nextId` the
store-generated row id. -/
def submitApplication (isValidUrl : String → Bool) (apps : List CreatorApplication)
    (userId now nextId : Nat) (d : SubmitData) :
    Except JsError (List CreatorApplication × CreatorApplication) :=
  if d.artist_name = "" ∨ d.application_reason = "" then
    .error (.validationErr "Missing required fields")
  else if d.artist_name.length < 2 ∨ d.artist_name.length > 100 then
    .error (.validationErr "Artist name must be between 2 and 100 characters")
  else if d.application_reason.length < 50 ∨ d.application_reason.length > 2000 then
    .error (.validationErr "Application reason must be between 50 and 2000 characters")
  else if (match d.portfolio_url with | some u => !(isValidUrl u) | none => false) then
    .error (.validationErr "Invalid portfolio URL format")
  else if (match d.sample_tracks with | some ts => decide (ts.length > 5) | none => false) then
    .error (.validationErr "Maximum 5 sample tracks allowed")
  else if (match d.sample_tracks with
           | some ts => ts.any (fun t => !(isValidUrl t))
           | none => false) then
    .error (.validationErr "Invalid sample track URL format")
  else
    match findExistingApplication apps userId with
    | some ex =>
      if ex.status = .pending then
        .error (.validationErr "You already have a pending application")
      else
        .error (.validationErr "You are already a creator")
    | none =>
      let app := newApplication userId nextId now d
      .ok (apps ++ [app], app)

/-- All input-side validation conditions of `submitApplication` holding. -/
def SubmitValid (isValidUrl : String → Bool) (d : SubmitData) : Prop :=
  2 ≤ d.artist_name.length ∧ d.artist_name.length ≤ 100 ∧
  50 ≤ d.application_reason.length ∧ d.application_reason.length ≤ 2000 ∧
  (∀ u, d.portfolio_url = some u → isValidUrl u = true) ∧
  (∀ ts, d.sample_tracks = some ts → ts.length ≤ 5 ∧ ∀ t ∈ ts, isValidUrl t = true)

/-! ## Application review (`applicationService.reviewApplication`) -/

/-- The slice of a `users` row that review touches. -/
structure ReviewUser where
  id : Nat
  role : Role
deriving DecidableEq, Repr

/-- State observed and mutated by `reviewApplication`. -/
structure ReviewState where
  applications : List CreatorApplication
  users : List ReviewUser
deriving DecidableEq, Repr

/-- The application-status write of `reviewApplication`. -/
def writeReviewDecision (apps : List CreatorApplication) (applicationId : Nat)
    (newStatus : AppStatus) (now adminId : Nat) (notes : String) :
    List CreatorApplication :=
  apps.map (fun a =>
    if a.id = applicationId then
      { a with status := newStatus, reviewedAt := some now,
               reviewedBy := some adminId, adminNotes := some notes }
    else a)

/-- The role-promotion write of `reviewApplication`. -/
def promoteToCreator (users : List ReviewUser) (userId : Nat) : List ReviewUser :=
  users.map (fun u => if u.id = userId then { u with role := .creator } else u)

/-- `applicationService.reviewApplication(applicationId, adminId, decision,
adminNotes)`.  The source performs the application-status update first and
the role promotion second, with no transaction: `roleWriteFails` is the
oracle for the store rejecting the role-update write, in which case the
function throws `AppError("Failed to upgrade user role", 500)` after the
status write has already been applied.  Database writes are not rolled back
by a thrown exception, so the function returns the final state alongside
the result. -/
def reviewApplication (st : ReviewState) (applicationId adminId : Nat)
    (decision : String) (adminNotes : String) (now : Nat) (roleWriteFails : Bool) :
    ReviewState × Except JsError (Nat × String) :=
  if decision ≠ "approved" ∧ decision ≠ "rejected" then
    (st, .error (.validationErr "Decision must be either approved or rejected"))
  else
    match st.applications.find? (fun a => decide (a.id = applicationId)) with
    | none => (st, .error (.appErr "Application not found" 404))
    | some app =>
      if app.status ≠ .pending then
        (st, .error (.validationErr "Application has already been reviewed"))
      else
        let newStatus := if decision = "approved" then AppStatus.approved else .rejected
        let st1 := { st with
          applications :=
            writeReviewDecision st.applications applicationId newStatus now adminId adminNotes }
        if decision = "approved" then
          if roleWriteFails then
            (st1, .error (.appErr "Failed to upgrade user role" 500))
          else
            ({ st1 with users := promoteToCreator st1.users app.userId },
              .ok (applicationId, decision))
        else
          (st1, .ok (applicationId, decision))

/-- A single pending application (id 1) by user 2, whose role is listener:
the state in which C1's failing input plays out. -/
def C1pendingState : ReviewState :=
  { applications := [{ id := 1, userId := 2, artistName := "A",
                       portfolioUrl := none, applicationReason := "r",
                       sampleTracks := [], status := .pending, submittedAt := 0,
                       reviewedAt := none, reviewedBy := none, adminNotes := none }],
    users := [⟨2, .listener⟩] }

/-! ## Waitlist approval (`adminService.approveUser`) -/

/-- A `users` row as the admin service reads it. -/
structure AccountRow where
  id : Nat
  role : Role
  status : UserStatus
  approvedAt : Option Nat
  createdAt : Nat
deriving DecidableEq, Repr

/-- State observed by `adminService.approveUser`: the identity provider's
user list (id, email) and the `users` table. -/
structure AdminState where
  authUsers : List (Nat × String)
  users : List AccountRow
deriving DecidableEq, Repr

/-- An `AccountRow` after the waitlist-approval write: status active,
`approved_at` stamped. -/
def activateRow (u : AccountRow) (now : Nat) : AccountRow :=
  { u with status := .active, approvedAt := some now }

/-- `adminService.approveUser(email)`: resolves the email through the
identity provider's user list, then performs the conditional update
`set status=active, approved_at=now where id=userId and status=waitlisted`.
A resolution miss throws a plain `Error`; a conditional update matching no
row surfaces as PGRST116 and is rethrown as a plain `Error` — both are
`genericErr` here, neither is a `NotFoundError`.  The follow-up approval
email is fire-and-forget and not modelled. -/
def approveUser (st : AdminState) (email : String) (now : Nat) :
    AdminState × Except JsError AccountRow :=
  match st.authUsers.find? (fun p => p.2 == email) with
  | none => (st, .error (.genericErr "User not found with this email"))
  | some au =>
    match st.users.find? (fun u => decide (u.id = au.1 ∧ u.status = .waitlisted)) with
    | none => (st, .error (.genericErr "User not in waitlist or already approved"))
    | some u =>
      ({ st with users := st.users.map (fun v =>
          if v.id = au.1 ∧ v.status = .waitlisted then activateRow v now else v) },
        .ok (activateRow u now))

/-- The single waitlisted account behind C6's double-approval scenario. -/
def C6initialState : AdminState :=
  { authUsers := [(1, "one@example.com")],
    users := [⟨1, .listener, .waitlisted, none, 0⟩] }

/-! ## Batch waitlist approval (`adminService.batchApproveUsers`) -/

/-- The `order by created_at ascending` relation of the waitlist queries. -/
def leCreated (a b : AccountRow) : Prop := a.createdAt ≤ b.createdAt

instance : DecidableRel leCreated := fun a b => Nat.decLe a.createdAt b.createdAt

instance : IsTotal AccountRow leCreated := ⟨fun a b => Nat.le_total a.createdAt b.createdAt⟩

instance : IsTrans AccountRow leCreated := ⟨fun _ _ _ => Nat.le_trans⟩

/-- The FIFO selection of `batchApproveUsers`: `status=waitlisted` rows
ordered by `created_at` ascending, limited to `count`. -/
def batchSelect (users : List AccountRow) (count : Nat) : List AccountRow :=
  ((users.filter (fun u => decide (u.status = .waitlisted))).insertionSort
    leCreated).take count

/-- The batch update of `batchApproveUsers`: `set status=active,
approved_at=now where id in userIds` — with no `status=waitlisted` guard on
the write (unlike the single-account approvals, which add
`.eq('status', 'waitlisted')`). -/
def batchUpdate (users : List AccountRow) (userIds : List Nat) (now : Nat) :
    List AccountRow :=
  users.map (fun u => if u.id ∈ userIds then activateRow u now else u)

/-- `userService.approveUsers`: the conditional waitlisted-to-active
transition applied as one set operation
(`.in('id', userIds).eq('status', 'waitlisted')`) — the "same conditional
transition" the spec describes for the batch path. -/
def conditionalApproveUsers (users : List AccountRow) (userIds : List Nat)
    (now : Nat) : List AccountRow :=
  users.map (fun u =>
    if u.id ∈ userIds ∧ u.status = .waitlisted then activateRow u now else u)

/-- `adminService.batchApproveUsers(count)`, with the select and the update
possibly observing different states (`selectState`, `updateState`): the two
store calls are separate round trips, so another request's write can land
between them.  Returns the updated table and the reported approved count
(the number of rows the update matched). -/
def batchApproveUsersWith (selectState updateState : List AccountRow)
    (count now : Nat) : Except JsError (List AccountRow × Nat) :=
  if count < 1 then
    .error (.genericErr "Count must be at least 1")
  else if count > 100 then
    .error (.genericErr "Cannot approve more than 100 users at once")
  else if (batchSelect selectState count).length = 0 then
    .ok (updateState, 0)
  else
    .ok (batchUpdate updateState
          ((batchSelect selectState count).map AccountRow.id) now,
         (updateState.filter (fun u =>
           decide (u.id ∈ (batchSelect selectState count).map AccountRow.id))).length)

/-- `batchApproveUsers` in an uninterleaved execution: select and update
observe the same state. -/
def batchApproveUsers (users : List AccountRow) (count now : Nat) :
    Except JsError (List AccountRow × Nat) :=
  batchApproveUsersWith users users count now

/-- The FIFO rank of an account: how many waitlisted accounts were created
strictly earlier. -/
def waitlistRank (users : List AccountRow) (u : AccountRow) : Nat :=
  ((users.filter (fun v => decide (v.status = .waitlisted))).filter
    (fun v => decide (v.createdAt < u.createdAt))).length

/-- Four accounts, three waitlisted with distinct creation times (10, 20,
30): C4's witness state. -/
def C4users : List AccountRow :=
  [⟨1, .listener, .waitlisted, none, 30⟩,
   ⟨2, .listener, .waitlisted, none, 10⟩,
   ⟨3, .listener, .active, none, 20⟩,
   ⟨4, .listener, .waitlisted, none, 25⟩]

/-! ## Follow graph (`followService.followUser`) -/

/-- A row of `follows`. -/
structure FollowRow where
  followerId : Nat
  followingId : Nat
deriving DecidableEq, Repr

/-- State observed by `followService.followUser`: existing user ids and the
`follows` table. -/
structure FollowState where
  userIds : List Nat
  follows : List FollowRow
deriving DecidableEq, Repr

/-- `followService.followUser(followerId, followingId)`: self-follow is a
`ValidationError`; an absent target a `NotFoundError`; an existing pair a
`ValidationError` ("Already following this user"); otherwise the pair is
inserted. -/
def followUser (st : FollowState) (followerId followingId : Nat) :
    FollowState × Except JsError FollowRow :=
  if followerId = followingId then
    (st, .error (.validationErr "You cannot follow yourself"))
  else if followingId ∉ st.userIds then
    (st, .error (.notFoundErr "User not found"))
  else if st.follows.any (fun f =>
      decide (f.followerId = followerId ∧ f.followingId = followingId)) then
    (st, .error (.validationErr "Already following this user"))
  else
    ({ st with follows := st.follows ++ [⟨followerId, followingId⟩] },
      .ok ⟨followerId, followingId⟩)

/-- Two accounts, no follows yet: C7's scenario state. -/
def C7state : FollowState := { userIds := [1, 2], follows := [] }

/-! ## Like toggle (`likeService.toggleLike`) and the `update_like_count`
trigger -/

/-- A row of `likes`.  The schema places no foreign key on `content_id`. -/
structure LikeRow where
  id : Nat
  userId : Nat
  contentType : String
  contentId : Nat
deriving DecidableEq, Repr

/-- The id and cached `like_count` of a `tracks` or `reels` row. -/
structure ContentCounter where
  id : Nat
  likeCount : Int
deriving DecidableEq, Repr

/-- State observed by the like toggle: the `likes` table, the two content
tables' counters, and the store's fresh primary-key counter for likes. -/
structure LikeState where
  likes : List LikeRow
  tracks : List ContentCounter
  reels : List ContentCounter
  nextLikeId : Nat
deriving DecidableEq, Repr

/-- The `UPDATE ... SET like_count = like_count + d WHERE id = cid` body of
the `update_like_count` trigger, on one content table. -/
def bumpCount (rows : List ContentCounter) (cid : Nat) (d : Int) :
    List ContentCounter :=
  rows.map (fun c => if c.id = cid then { c with likeCount := c.likeCount + d } else c)

/-- The `update_like_count` trigger: adjust the matching table's counter by
`d` for the affected row's content type and id. -/
def applyLikeTrigger (st : LikeState) (contentType : String) (cid : Nat) (d : Int) :
    LikeState :=
  if contentType = "track" then { st with tracks := bumpCount st.tracks cid d }
  else if contentType = "reel" then { st with reels := bumpCount st.reels cid d }
  else st

/-- Insert of a `likes` row, with the AFTER INSERT trigger firing on it. -/
def insertLike (st : LikeState) (userId : Nat) (ty : String) (cid : Nat) : LikeState :=
  applyLikeTrigger
    { st with likes := st.likes ++ [⟨st.nextLikeId, userId, ty, cid⟩],
              nextLikeId := st.nextLikeId + 1 } ty cid 1

/-- Delete of `likes` rows by primary key, with the AFTER DELETE trigger
firing once per deleted row. -/
def deleteLikeById (st : LikeState) (likeId : Nat) : LikeState :=
  let removed := st.likes.filter (fun l => decide (l.id = likeId))
  let st1 := { st with likes := st.likes.filter (fun l => !decide (l.id = likeId)) }
  removed.foldl (fun s r => applyLikeTrigger s r.contentType r.contentId (-1)) st1

/-- `likeService.toggleLike(userId, contentType, contentId)`: validate the
content type, look the existing like up by (user, type, content), then
delete it (reporting liked=false) or insert a fresh one (reporting
liked=true).  No content-existence check is performed. -/
def toggleLike (st : LikeState) (userId : Nat) (contentType : String)
    (contentId : Nat) : LikeState × Except JsError Bool :=
  if contentType ≠ "track" ∧ contentType ≠ "reel" then
    (st, .error (.validationErr "Invalid content type"))
  else
    match st.likes.find? (fun l =>
        decide (l.userId = userId ∧ l.contentType = contentType ∧
          l.contentId = contentId)) with
    | some existing => (deleteLikeById st existing.id, .ok false)
    | none => (insertLike st userId contentType contentId, .ok true)

/-- Number of `likes` rows for a given content type and id. -/
def likeRowCount (likes : List LikeRow) (ty : String) (cid : Nat) : Nat :=
  (likes.filter (fun l => decide (l.contentType = ty ∧ l.contentId = cid))).length

/-- The central invariant: every stored `like_count` equals the number of
matching `likes` rows. -/
def LikeInvariant (st : LikeState) : Prop :=
  (∀ t ∈ st.tracks, t.likeCount = (likeRowCount st.likes "track" t.id : Int)) ∧
  (∀ r ∈ st.reels, r.likeCount = (likeRowCount st.likes "reel" r.id : Int))

/-- Structural well-formedness the store maintains: primary-key uniqueness
of like ids, freshness of the id counter, and the
`(user_id, content_type, content_id)` uniqueness constraint. -/
def LikeWF (st : LikeState) : Prop :=
  (st.likes.map LikeRow.id).Nodup ∧
  (∀ l ∈ st.likes, l.id < st.nextLikeId) ∧
  (st.likes.map (fun l => (l.userId, l.contentType, l.contentId))).Nodup

/-- A sequence of toggle operations, applied left to right. -/
def runToggles (st : LikeState) (ops : List (Nat × String × Nat)) : LikeState :=
  ops.foldl (fun s op => (toggleLike s op.1 op.2.1 op.2.2).1) st

/-- An empty likes table next to one track (id 5) with a zero counter: the
state C2's witness toggles against. -/
def C2state : LikeState :=
  { likes := [], tracks := [⟨5, 0⟩], reels := [], nextLikeId := 0 }

/-! ## Content rows and deletion (`trackService` / `reelService`) -/

/-- A `tracks` row as the delete/create paths touch it; media locators are
opaque numbers standing for storage URLs. -/
structure TrackRow where
  id : Nat
  userId : Nat
  audioUrl : Nat
  coverUrl : Option Nat
deriving DecidableEq, Repr

/-- A `reels` row as the delete/create paths touch it. -/
structure ReelRow where
  id : Nat
  userId : Nat
  videoUrl : Nat
deriving DecidableEq, Repr

/-- `trackService.deleteTrack(trackId, userId)`: both the select and the
delete are keyed on `id = trackId AND user_id = userId`, so the ownership
gate is applied unconditionally; a non-matching pair yields
`NotFoundError("Track not found or unauthorized")`.  The best-effort
storage deletes that follow a successful row delete do not affect the rows
and are not modelled here. -/
def deleteTrack (tracks : List TrackRow) (trackId userId : Nat) :
    List TrackRow × Except JsError Unit :=
  match tracks.find? (fun t => decide (t.id = trackId ∧ t.userId = userId)) with
  | none => (tracks, .error (.notFoundErr "Track not found or unauthorized"))
  | some _ =>
    (tracks.filter (fun t => !decide (t.id = trackId ∧ t.userId = userId)), .ok ())

/-- `reelService.deleteReel(reelId, userId)`: same ownership-gated shape as
`deleteTrack`. -/
def deleteReel (reels : List ReelRow) (reelId userId : Nat) :
    List ReelRow × Except JsError Unit :=
  match reels.find? (fun r => decide (r.id = reelId ∧ r.userId = userId)) with
  | none => (reels, .error (.notFoundErr "Reel not found or unauthorized"))
  | some _ =>
    (reels.filter (fun r => !decide (r.id = reelId ∧ r.userId = userId)), .ok ())

/-- `adminController.deleteTrack`: the admin content-moderation endpoint
calls `trackService.deleteTrack(id, req.user.id)` — the admin's own id is
passed in the ownership slot. -/
def adminDeleteTrack (tracks : List TrackRow) (trackId adminId : Nat) :
    List TrackRow × Except JsError Unit :=
  deleteTrack tracks trackId adminId

/-- `adminController.deleteReel`: likewise passes the admin's own id to the
ownership-gated service delete. -/
def adminDeleteReel (reels : List ReelRow) (reelId adminId : Nat) :
    List ReelRow × Except JsError Unit :=
  deleteReel reels reelId adminId

/-! ## Content creation with upload compensation -/

/-- One call the object-storage Gateway observes. -/
inductive GatewayEvent
  | put (locator : Nat)
  | del (locator : Nat)
deriving DecidableEq, Repr

/-- State for the create paths: content rows, the Gateway's call log and
fresh-locator / fresh-row-id counters. -/
structure StoreState where
  tracks : List TrackRow
  reels : List ReelRow
  gatewayLog : List GatewayEvent
  nextLocator : Nat
  nextRowId : Nat
deriving DecidableEq, Repr

/-- `storageService.uploadFile` with the Gateway put succeeding: validate,
then store and return the fresh locator. -/
def uploadFileOp (st : StoreState) (file : UploadFile) (category : FileCategory) :
    Except JsError (StoreState × Nat) :=
  match validateFile (some file) category with
  | .error e => .error e
  | .ok _ =>
    .ok ({ st with gatewayLog := st.gatewayLog ++ [.put st.nextLocator],
                   nextLocator := st.nextLocator + 1 }, st.nextLocator)

/-- `storageService.deleteFile`: best-effort Gateway delete.  Its own
failure (`deleteFails`) is logged and swallowed — the function never
throws. -/
def deleteFileOp (st : StoreState) (locator : Nat) (deleteFails : Bool) : StoreState :=
  if deleteFails then st
  else { st with gatewayLog := st.gatewayLog ++ [.del locator] }

/-- `trackService.createTrack`: title and audio-presence validation, audio
upload, optional cover upload, then the row insert.  `insertFails` is the
oracle for the store rejecting the insert; in that case the uploaded
object(s) are deleted best-effort (audio first, then cover) and
`AppError("Failed to create track", 500)` is thrown. -/
def createTrack (st : StoreState) (userId : Nat) (title : String)
    (audioFile coverFile : Option UploadFile) (insertFails deleteFails : Bool) :
    StoreState × Except JsError TrackRow :=
  if strTrim title = "" then
    (st, .error (.validationErr "Track title is required"))
  else
    match audioFile with
    | none => (st, .error (.validationErr "Audio file is required"))
    | some af =>
      match uploadFileOp st af .audio with
      | .error e => (st, .error e)
      | .ok (st1, audioUrl) =>
        match coverFile with
        | some cf =>
          match uploadFileOp st1 cf .image with
          | .error e => (st1, .error e)
          | .ok (st2, coverUrl) =>
            if insertFails then
              let st3 := deleteFileOp st2 audioUrl deleteFails
              let st4 := deleteFileOp st3 coverUrl deleteFails
              (st4, .error (.appErr "Failed to create track" 500))
            else
              let row : TrackRow := ⟨st2.nextRowId, userId, audioUrl, some coverUrl⟩
              ({ st2 with tracks := st2.tracks ++ [row],
                          nextRowId := st2.nextRowId + 1 }, .ok row)
        | none =>
          if insertFails then
            (deleteFileOp st1 audioUrl deleteFails,
              .error (.appErr "Failed to create track" 500))
          else
            let row : TrackRow := ⟨st1.nextRowId, userId, audioUrl, none⟩
            ({ st1 with tracks := st1.tracks ++ [row],
                        nextRowId := st1.nextRowId + 1 }, .ok row)

/-- `reelService.createReel`: video-presence validation, video upload, then
the row insert, with the same compensation shape as `createTrack`. -/
def createReel (st : StoreState) (userId : Nat) (videoFile : Option UploadFile)
    (insertFails deleteFails : Bool) : StoreState × Except JsError ReelRow :=
  match videoFile with
  | none => (st, .error (.validationErr "Video file is required"))
  | some vf =>
    match uploadFileOp st vf .video with
    | .error e => (st, .error e)
    | .ok (st1, videoUrl) =>
      if insertFails then
        (deleteFileOp st1 videoUrl deleteFails,
          .error (.appErr "Failed to create reel" 500))
      else
        let row : ReelRow := ⟨st1.nextRowId, userId, videoUrl⟩
        ({ st1 with reels := st1.reels ++ [row],
                    nextRowId := st1.nextRowId + 1 }, .ok row)

end MusicCombinators

namespace MusicCombinators

/-- C9 counterexample: a 20MB `audio/wav` payload is accepted by the code's
pre-Gateway validation, while the spec's constraints (audio at most 15MB,
MIME mpeg only) reject it, so the code does not accept exactly the spec's
category constraints. -/
theorem C9_counterexample :
    validateFile (some ⟨true, "audio/wav", 20 * 1024 * 1024⟩) .audio = .ok () ∧
    ¬ specAcceptsFile ⟨true, "audio/wav", 20 * 1024 * 1024⟩ .audio := by
  constructor
  · rfl
  · intro h
    have := h.1
    simp [specMaxSize] at this

/-- C9 (amended): the pre-Gateway validation accepts exactly a present
buffer with MIME type in the source's `ALLOWED_TYPES` whitelist (audio
mpeg/mp3/wav/ogg, video mp4/webm/ogg, image jpeg/jpg/png/webp) and size at
most the source's `MAX_SIZES` limit (audio 50MB, video 100MB, image 5MB),
and rejects everything else with a Validation failure. -/
theorem C9_validateFile_accepts_exactly_code_limits (f : UploadFile) (c : FileCategory) :
    (validateFile (some f) c = .ok () ↔
      (f.hasBuffer = true ∧ f.mimetype ∈ ALLOWED_TYPES c ∧ f.size ≤ MAX_SIZES c)) ∧
    (validateFile (some f) c ≠ .ok () →
      ∃ msg, validateFile (some f) c = .error (.validationErr msg)) := by
  constructor
  · constructor
    · intro h
      by_cases hb : f.hasBuffer
      · by_cases hm : f.mimetype ∈ ALLOWED_TYPES c
        · by_cases hs : f.size > MAX_SIZES c
          · simp [validateFile, hb, hm, hs] at h
          · exact ⟨hb, hm, by omega⟩
        · simp [validateFile, hb, hm] at h
      · simp [validateFile, hb] at h
    · rintro ⟨hb, hm, hs⟩
      have hs' : ¬ f.size > MAX_SIZES c := by omega
      simp [validateFile, hb, hm, hs']
  · intro h
    by_cases hb : f.hasBuffer
    · by_cases hm : f.mimetype ∈ ALLOWED_TYPES c
      · by_cases hs : f.size > MAX_SIZES c
        · exact ⟨"File size exceeds limit", by simp [validateFile, hb, hm, hs]⟩
        · exact absurd (by simp [validateFile, hb, hm, hs]) h
      · exact ⟨"Invalid file type", by simp [validateFile, hb, hm]⟩
    · exact ⟨"No file provided", by simp [validateFile, hb]⟩

/-- C9 witness: the amended characterization evaluated at a concrete 3MB
jpeg image, which the validation accepts. -/
theorem C9_witness :
    (validateFile (some ⟨true, "image/jpeg", 3 * 1024 * 1024⟩) .image = .ok () ↔
      ((true : Bool) = true ∧ "image/jpeg" ∈ ALLOWED_TYPES .image ∧
        3 * 1024 * 1024 ≤ MAX_SIZES .image)) ∧
    (validateFile (some ⟨true, "image/jpeg", 3 * 1024 * 1024⟩) .image ≠ .ok () →
      ∃ msg, validateFile (some ⟨true, "image/jpeg", 3 * 1024 * 1024⟩) .image =
        .error (.validationErr msg)) :=
  C9_validateFile_accepts_exactly_code_limits ⟨true, "image/jpeg", 3 * 1024 * 1024⟩ .image

/-- Helper: with all input validation passing, `submitApplication` reduces
to the duplicate check followed by the insert. -/
lemma submitApplication_of_valid (isValidUrl : String → Bool)
    (apps : List CreatorApplication) (userId now nextId : Nat) (d : SubmitData)
    (hv : SubmitValid isValidUrl d) :
    submitApplication isValidUrl apps userId now nextId d =
      (match findExistingApplication apps userId with
       | some ex =>
         if ex.status = .pending then
           .error (.validationErr "You already have a pending application")
         else
           .error (.validationErr "You are already a creator")
       | none =>
         .ok (apps ++ [newApplication userId nextId now d],
              newApplication userId nextId now d)) := by
  obtain ⟨h1, h2, h3, h4, h5, h6⟩ := hv
  have ha : ¬ (d.artist_name = "" ∨ d.application_reason = "") := by
    rintro (h | h)
    · rw [h] at h1; simp at h1
    · rw [h] at h3; simp at h3
  have hb : ¬ (d.artist_name.length < 2 ∨ d.artist_name.length > 100) := by omega
  have hc : ¬ (d.application_reason.length < 50 ∨ d.application_reason.length > 2000) := by
    omega
  have hd : (match d.portfolio_url with | some u => !(isValidUrl u) | none => false)
      = false := by
    cases hu : d.portfolio_url with
    | none => rfl
    | some u => simp [h5 u hu]
  have he : (match d.sample_tracks with
             | some ts => decide (ts.length > 5)
             | none => false) = false := by
    cases ht : d.sample_tracks with
    | none => rfl
    | some ts =>
      have := (h6 ts ht).1
      simp
      omega
  have hf : (match d.sample_tracks with
             | some ts => ts.any (fun t => !(isValidUrl t))
             | none => false) = false := by
    cases ht : d.sample_tracks with
    | none => rfl
    | some ts =>
      simp only [List.any_eq_false]
      intro t ht'
      simp [(h6 ts ht).2 t ht']
  simp only [submitApplication, ha, hb, hc, hd, he, hf, if_false, ite_false,
    Bool.false_eq_true, if_neg, not_false_eq_true]

/-- C5 counterexample: with a pending application already on file, a fully
valid resubmission fails with a `ValidationError` ("You already have a
pending application"), not with a Conflict error as the claim states. -/
theorem C5_counterexample :
    submitApplication (fun _ => true)
      [{ id := 3, userId := 7, artistName := "Old", portfolioUrl := none,
         applicationReason := "My earlier application reason, already on file and long enough.",
         sampleTracks := [], status := .pending, submittedAt := 0,
         reviewedAt := none, reviewedBy := none, adminNotes := none }] 7 10 1
      { artist_name := "DJ Example", portfolio_url := none,
        application_reason :=
          "I have been producing underground electronic music for six years now.",
        sample_tracks := none } =
      .error (.validationErr "You already have a pending application") ∧
    JsError.isConflict (.validationErr "You already have a pending application")
      = false := by
  exact ⟨rfl, rfl⟩

/-- C5 (amended): submit fails with a Validation error when artistName is
outside 2-100 characters, when applicationReason is outside 50-2000
characters, or when an optional URL field is malformed; when an application
with status pending or approved already exists for this user it fails with
a Validation error as well (the source throws `ValidationError`, not the
Conflict error the claim states); and otherwise it inserts a new
application with status pending. -/
theorem C5_submit_behavior (isValidUrl : String → Bool)
    (apps : List CreatorApplication) (userId now nextId : Nat) (d : SubmitData) :
    ((d.artist_name.length < 2 ∨ d.artist_name.length > 100) →
      ∃ m, submitApplication isValidUrl apps userId now nextId d =
        .error (.validationErr m)) ∧
    ((d.application_reason.length < 50 ∨ d.application_reason.length > 2000) →
      ∃ m, submitApplication isValidUrl apps userId now nextId d =
        .error (.validationErr m)) ∧
    (∀ u, d.portfolio_url = some u → isValidUrl u = false →
      ∃ m, submitApplication isValidUrl apps userId now nextId d =
        .error (.validationErr m)) ∧
    (SubmitValid isValidUrl d →
      ∀ ex ∈ apps, ex.userId = userId → (ex.status = .pending ∨ ex.status = .approved) →
      ∃ m, submitApplication isValidUrl apps userId now nextId d =
        .error (.validationErr m)) ∧
    (SubmitValid isValidUrl d →
      (∀ ex ∈ apps, ex.userId = userId → ex.status = .rejected) →
      submitApplication isValidUrl apps userId now nextId d =
        .ok (apps ++ [newApplication userId nextId now d],
             newApplication userId nextId now d) ∧
      (newApplication userId nextId now d).status = .pending) := by
  refine ⟨?_, ?_, ?_, ?_, ?_⟩
  · intro h
    by_cases h0 : d.artist_name = "" ∨ d.application_reason = ""
    · exact ⟨"Missing required fields", by simp [submitApplication, h0]⟩
    · exact ⟨"Artist name must be between 2 and 100 characters",
        by simp [submitApplication, h0, h]⟩
  · intro h
    by_cases h0 : d.artist_name = "" ∨ d.application_reason = ""
    · exact ⟨"Missing required fields", by simp [submitApplication, h0]⟩
    · by_cases h1 : d.artist_name.length < 2 ∨ d.artist_name.length > 100
      · exact ⟨"Artist name must be between 2 and 100 characters",
          by simp [submitApplication, h0, h1]⟩
      · exact ⟨"Application reason must be between 50 and 2000 characters",
          by simp [submitApplication, h0, h1, h]⟩
  · intro u hu hbad
    by_cases h0 : d.artist_name = "" ∨ d.application_reason = ""
    · exact ⟨"Missing required fields", by simp [submitApplication, h0]⟩
    · by_cases h1 : d.artist_name.length < 2 ∨ d.artist_name.length > 100
      · exact ⟨"Artist name must be between 2 and 100 characters",
          by simp [submitApplication, h0, h1]⟩
      · by_cases h2 : d.application_reason.length < 50 ∨ d.application_reason.length > 2000
        · exact ⟨"Application reason must be between 50 and 2000 characters",
            by simp [submitApplication, h0, h1, h2]⟩
        · exact ⟨"Invalid portfolio URL format",
            by simp [submitApplication, h0, h1, h2, hu, hbad]⟩
  · intro hv ex hex hexu hexs
    rw [submitApplication_of_valid isValidUrl apps userId now nextId d hv]
    have hsome : (findExistingApplication apps userId).isSome := by
      apply List.find?_isSome.2
      exact ⟨ex, hex, by simp [hexu, hexs]⟩
    cases hfind : findExistingApplication apps userId with
    | none => rw [hfind] at hsome; simp at hsome
    | some found =>
      by_cases hp : found.status = .pending
      · exact ⟨"You already have a pending application", by simp [hfind, hp]⟩
      · exact ⟨"You are already a creator", by simp [hfind, hp]⟩
  · intro hv hnone
    rw [submitApplication_of_valid isValidUrl apps userId now nextId d hv]
    have hfind : findExistingApplication apps userId = none := by
      apply List.find?_eq_none.2
      intro a ha
      simp only [decide_eq_true_eq, not_and]
      intro hua
      rcases h : a.status with _ | _ | _ <;> simp_all [hnone a ha hua]
    rw [hfind]
    exact ⟨rfl, rfl⟩

/-- C5 witness: the amended claim at a concrete fresh submission — no prior
application, valid fields — yields an inserted pending application. -/
theorem C5_witness :
    submitApplication (fun _ => true) [] 7 10 1
      { artist_name := "DJ Example", portfolio_url := none,
        application_reason :=
          "I have been producing underground electronic music for six years now.",
        sample_tracks := none } =
      .ok ([newApplication 7 1 10
        { artist_name := "DJ Example", portfolio_url := none,
          application_reason :=
            "I have been producing underground electronic music for six years now.",
          sample_tracks := none }],
        newApplication 7 1 10
        { artist_name := "DJ Example", portfolio_url := none,
          application_reason :=
            "I have been producing underground electronic music for six years now.",
          sample_tracks := none }) ∧
    (newApplication 7 1 10
        { artist_name := "DJ Example", portfolio_url := none,
          application_reason :=
            "I have been producing underground electronic music for six years now.",
          sample_tracks := none }).status = .pending :=
  (C5_submit_behavior (fun _ => true) [] 7 10 1 _).2.2.2.2
    (by refine ⟨by decide, by decide, by decide, by decide, ?_, ?_⟩ <;> intro x h <;> cases h)
    (by intro ex h; cases h)

/-- C1: the review of a pending application is not atomic.  With the
role-promotion write failing, `reviewApplication` leaves the application in
status approved while the applicant's role is still listener — the
approved-but-not-promoted state the claim rules out — because the source
writes the application status first and never rolls it back.  With the same
input and a succeeding role write, both writes land, confirming the failure
case is precisely the lost atomicity. -/
theorem C1_approval_not_atomic :
    (reviewApplication C1pendingState 1 9 "approved" "" 5 true).2 =
        .error (.appErr "Failed to upgrade user role" 500) ∧
    ((reviewApplication C1pendingState 1 9 "approved" "" 5 true).1.applications.map
        (fun a => (a.id, a.status))) = [(1, .approved)] ∧
    ((reviewApplication C1pendingState 1 9 "approved" "" 5 true).1.users.map
        (fun u => (u.id, u.role))) = [(2, .listener)] ∧
    ((reviewApplication C1pendingState 1 9 "approved" "" 5 false).1.users.map
        (fun u => (u.id, u.role))) = [(2, .creator)] := by
  exact ⟨rfl, rfl, rfl, rfl⟩

/-- Helper: `find?` returns the designated element when it satisfies the
predicate and is the only member doing so. -/
lemma find?_eq_some_of_unique {α : Type} (p : α → Bool) (l : List α) (a : α)
    (ha : a ∈ l) (hpa : p a = true) (huniq : ∀ b ∈ l, p b = true → b = a) :
    l.find? p = some a := by
  induction l with
  | nil => cases ha
  | cons x xs ih =>
    by_cases hx : p x = true
    · have hxa : x = a := huniq x (List.mem_cons_self x xs) hx
      rw [List.find?_cons_of_pos _ hx, hxa]
    · have hax : a ≠ x := fun h => hx (h ▸ hpa)
      have ha' : a ∈ xs := by
        rcases List.mem_cons.1 ha with h | h
        · exact absurd h hax
        · exact h
      rw [List.find?_cons_of_neg _ (by simpa using hx)]
      exact ih ha' (fun b hb hpb => huniq b (List.mem_cons_of_mem _ hb) hpb)

/-- C6 counterexample: on a single waitlisted account, approving twice
succeeds once and then fails — but the second failure is a plain `Error`
("User not in waitlist or already approved", surfaced as a 500), not the
NotFound failure the claim states. -/
theorem C6_counterexample :
    (approveUser C6initialState "one@example.com" 5).2 =
      .ok (activateRow ⟨1, .listener, .waitlisted, none, 0⟩ 5) ∧
    (approveUser ((approveUser C6initialState "one@example.com" 5).1)
        "one@example.com" 6).2 =
      .error (.genericErr "User not in waitlist or already approved") ∧
    JsError.isNotFound (.genericErr "User not in waitlist or already approved")
      = false := by
  exact ⟨rfl, rfl, rfl⟩

/-- C6 (amended): the waitlist approval succeeds only if the account's
current status is waitlisted, in which case it sets status active and
`approved_at` to the current time and changes no other account; if the
account is not currently waitlisted (in particular on a second call in
sequence) it fails, but with a plain error (HTTP 500), not NotFound. -/
theorem C6_approve_only_if_waitlisted (st : AdminState) (email : String)
    (now now2 uid : Nat) (u : AccountRow)
    (hmem : (uid, email) ∈ st.authUsers)
    (hsnd : (st.authUsers.map Prod.snd).Nodup)
    (hu : u ∈ st.users) (hid : u.id = uid)
    (hids : (st.users.map AccountRow.id).Nodup) :
    (u.status = .waitlisted →
      (approveUser st email now).2 = .ok (activateRow u now) ∧
      (approveUser st email now).1.users =
        st.users.map (fun v => if v.id = uid then activateRow v now else v) ∧
      (approveUser ((approveUser st email now).1) email now2).2 =
        .error (.genericErr "User not in waitlist or already approved")) ∧
    (u.status ≠ .waitlisted →
      approveUser st email now =
        (st, .error (.genericErr "User not in waitlist or already approved"))) := by
  have hfind1 : st.authUsers.find? (fun p => p.2 == email) = some (uid, email) := by
    apply find?_eq_some_of_unique _ _ _ hmem (by simp)
    intro b hb hpb
    have hb2 : b.2 = email := by simpa using hpb
    exact List.inj_on_of_nodup_map hsnd hb hmem (by simp [hb2])
  constructor
  · intro hw
    have hfind2 : st.users.find?
        (fun v => decide (v.id = uid ∧ v.status = .waitlisted)) = some u := by
      apply find?_eq_some_of_unique _ _ _ hu (by simp [hid, hw])
      intro b hb hpb
      simp only [decide_eq_true_eq] at hpb
      exact List.inj_on_of_nodup_map hids hb hu (by rw [hpb.1, hid])
    have hres : approveUser st email now =
        ({ st with users := st.users.map (fun v =>
            if v.id = uid ∧ v.status = .waitlisted then activateRow v now else v) },
          .ok (activateRow u now)) := by
      simp only [approveUser, hfind1, hfind2]
    have hmapeq : st.users.map (fun v =>
        if v.id = uid ∧ v.status = .waitlisted then activateRow v now else v) =
        st.users.map (fun v => if v.id = uid then activateRow v now else v) := by
      apply List.map_congr_left
      intro v hv
      by_cases hvid : v.id = uid
      · have hvu : v = u := List.inj_on_of_nodup_map hids hv hu (by rw [hvid, hid])
        rw [hvu]
        simp [hid, hw]
      · simp [hvid]
    refine ⟨by rw [hres], by rw [hres]; exact hmapeq, ?_⟩
    rw [hres]
    have hfind2' : (st.users.map (fun v =>
        if v.id = uid ∧ v.status = .waitlisted then activateRow v now else v)).find?
        (fun v => decide (v.id = uid ∧ v.status = .waitlisted)) = none := by
      apply List.find?_eq_none.2
      intro x hx
      simp only [decide_eq_true_eq, not_and]
      intro hxid hxw
      obtain ⟨v, hv, hveq⟩ := List.mem_map.1 hx
      by_cases hvid : v.id = uid ∧ v.status = .waitlisted
      · rw [← hveq] at hxw
        simp [hvid, activateRow] at hxw
      · rw [← hveq] at hxid
        simp only [hvid, if_false] at hxid
        have hvu : v = u := List.inj_on_of_nodup_map hids hv hu (by
          rw [show v.id = uid from by simpa [hvid] using hxid, hid])
        exact hvid ⟨by simpa [hvid] using hxid, by rw [hvu]; exact hw⟩
    simp only [approveUser, hfind1, hfind2']
  · intro hnw
    have hfind2 : st.users.find?
        (fun v => decide (v.id = uid ∧ v.status = .waitlisted)) = none := by
      apply List.find?_eq_none.2
      intro b hb
      simp only [decide_eq_true_eq, not_and]
      intro hbid hbw
      have hbu : b = u := List.inj_on_of_nodup_map hids hb hu (by rw [hbid, hid])
      exact hnw (by rw [← hbu]; exact hbw)
    simp only [approveUser, hfind1, hfind2]

/-- C6 witness: the amended claim on the concrete one-account state —
approval succeeds, stamps the account, and the immediate second approval
fails with the plain error. -/
theorem C6_witness :
    (approveUser C6initialState "one@example.com" 5).2 =
      .ok (activateRow ⟨1, .listener, .waitlisted, none, 0⟩ 5) ∧
    (approveUser C6initialState "one@example.com" 5).1.users =
      C6initialState.users.map (fun v => if v.id = 1 then activateRow v 5 else v) ∧
    (approveUser ((approveUser C6initialState "one@example.com" 5).1)
        "one@example.com" 6).2 =
      .error (.genericErr "User not in waitlist or already approved") :=
  (C6_approve_only_if_waitlisted C6initialState "one@example.com" 5 6 1
      ⟨1, .listener, .waitlisted, none, 0⟩
      (by simp [C6initialState]) (by simp [C6initialState])
      (by simp [C6initialState]) rfl (by simp [C6initialState])).1 rfl

/-- C7 counterexample: follow(1,2) then follow(1,2) again on two existing
accounts — the second call fails with a `ValidationError` ("Already
following this user", HTTP 400), not the Conflict error the claim
states. -/
theorem C7_counterexample :
    (followUser C7state 1 2).2 = .ok ⟨1, 2⟩ ∧
    (followUser (followUser C7state 1 2).1 1 2).2 =
      .error (.validationErr "Already following this user") ∧
    JsError.isConflict (.validationErr "Already following this user") = false := by
  exact ⟨rfl, rfl, rfl⟩

/-- C7 (amended): follow fails Validation on self-follow, NotFound on an
absent target, and fails with a Validation error (not Conflict) when the
pair already exists; otherwise it inserts the follow relationship. -/
theorem C7_follow_behavior (st : FollowState) (a b : Nat) :
    (a = b →
      followUser st a b = (st, .error (.validationErr "You cannot follow yourself"))) ∧
    (a ≠ b → b ∉ st.userIds →
      followUser st a b = (st, .error (.notFoundErr "User not found"))) ∧
    (a ≠ b → b ∈ st.userIds →
      (∃ f ∈ st.follows, f.followerId = a ∧ f.followingId = b) →
      followUser st a b = (st, .error (.validationErr "Already following this user"))) ∧
    (a ≠ b → b ∈ st.userIds →
      (∀ f ∈ st.follows, ¬ (f.followerId = a ∧ f.followingId = b)) →
      followUser st a b =
        ({ st with follows := st.follows ++ [⟨a, b⟩] }, .ok ⟨a, b⟩)) := by
  refine ⟨?_, ?_, ?_, ?_⟩
  · intro h
    simp [followUser, h]
  · intro h hb
    simp [followUser, h, hb]
  · intro h hb hex
    simp [followUser, h, hb]
    exact hex
  · intro h hb hnone
    simp [followUser, h, hb]
    intro x hx hxa
    exact fun hxb => hnone x hx ⟨hxa, hxb⟩

/-- C7 witness: the amended claim at concrete inputs — a fresh follow
inserts the pair, a self-follow is rejected with the Validation error. -/
theorem C7_witness :
    followUser C7state 1 2 =
      ({ C7state with follows := C7state.follows ++ [⟨1, 2⟩] }, .ok ⟨1, 2⟩) ∧
    followUser C7state 2 2 =
      (C7state, .error (.validationErr "You cannot follow yourself")) :=
  ⟨(C7_follow_behavior C7state 1 2).2.2.2 (by decide) (by simp [C7state])
      (by intro f hf; simp [C7state] at hf),
   (C7_follow_behavior C7state 2 2).1 rfl⟩

/-- C3: the admin-variant delete does not bypass the ownership gate.  On
track 1 (and reel 1) owned by user 2, the admin endpoint called by admin 3
fails with `NotFoundError("... not found or unauthorized")` and leaves the
row in place, because the controller passes the admin's own id into the
service's id-AND-owner keyed delete; the same call with the owner's id 2
does delete the row, showing the gate is what blocks the admin. -/
theorem C3_admin_delete_hits_ownership_gate :
    adminDeleteTrack [⟨1, 2, 10, none⟩] 1 3 =
      ([⟨1, 2, 10, none⟩], .error (.notFoundErr "Track not found or unauthorized")) ∧
    adminDeleteReel [⟨1, 2, 20⟩] 1 3 =
      ([⟨1, 2, 20⟩], .error (.notFoundErr "Reel not found or unauthorized")) ∧
    adminDeleteTrack [⟨1, 2, 10, none⟩] 1 2 = ([], .ok ()) ∧
    adminDeleteReel [⟨1, 2, 20⟩] 1 2 = ([], .ok ()) := by
  exact ⟨rfl, rfl, rfl, rfl⟩

/-- C8: upload compensation on a failed metadata insert.  For both content
kinds, if the media uploads succeed and the row insert fails, the create
reports the insert failure (`AppError(..., 500)`), persists no row, and —
when the best-effort Gateway deletes succeed — the Gateway log shows the
put(s) followed by the matching delete(s); when the compensating delete
itself fails, the create still reports the original insert error. -/
theorem C8_upload_compensation (st : StoreState) (userId : Nat) (title : String)
    (af : UploadFile) (cf : Option UploadFile) (vf : UploadFile) (deleteFails : Bool)
    (ht : ¬ strTrim title = "")
    (haf : validateFile (some af) .audio = .ok ())
    (hcf : ∀ c, cf = some c → validateFile (some c) .image = .ok ())
    (hvf : validateFile (some vf) .video = .ok ()) :
    ((createTrack st userId title (some af) cf true deleteFails).2 =
        .error (.appErr "Failed to create track" 500) ∧
      (createTrack st userId title (some af) cf true deleteFails).1.tracks = st.tracks ∧
      (cf = none →
        (createTrack st userId title (some af) none true false).1.gatewayLog =
          st.gatewayLog ++ [.put st.nextLocator, .del st.nextLocator]) ∧
      (∀ c, cf = some c →
        (createTrack st userId title (some af) (some c) true false).1.gatewayLog =
          st.gatewayLog ++ [.put st.nextLocator, .put (st.nextLocator + 1),
            .del st.nextLocator, .del (st.nextLocator + 1)])) ∧
    ((createReel st userId (some vf) true deleteFails).2 =
        .error (.appErr "Failed to create reel" 500) ∧
      (createReel st userId (some vf) true deleteFails).1.reels = st.reels ∧
      (createReel st userId (some vf) true false).1.gatewayLog =
        st.gatewayLog ++ [.put st.nextLocator, .del st.nextLocator]) := by
  constructor
  · cases cf with
    | none =>
      refine ⟨?_, ?_, ?_, ?_⟩
      · cases deleteFails <;>
          simp [createTrack, uploadFileOp, deleteFileOp, ht, haf]
      · cases deleteFails <;>
          simp [createTrack, uploadFileOp, deleteFileOp, ht, haf]
      · intro _
        simp [createTrack, uploadFileOp, deleteFileOp, ht, haf]
      · intro c hc
        cases hc
    | some c =>
      have hc := hcf c rfl
      refine ⟨?_, ?_, ?_, ?_⟩
      · cases deleteFails <;>
          simp [createTrack, uploadFileOp, deleteFileOp, ht, haf, hc]
      · cases deleteFails <;>
          simp [createTrack, uploadFileOp, deleteFileOp, ht, haf, hc]
      · intro hnone
        cases hnone
      · intro c' hc'
        obtain rfl : c = c' := by injection hc'
        simp [createTrack, uploadFileOp, deleteFileOp, ht, haf, hc]
  · refine ⟨?_, ?_, ?_⟩
    · cases deleteFails <;> simp [createReel, uploadFileOp, deleteFileOp, hvf]
    · cases deleteFails <;> simp [createReel, uploadFileOp, deleteFileOp, hvf]
    · simp [createReel, uploadFileOp, deleteFileOp, hvf]

/-- C8 witness: the compensation theorem at a concrete empty store with a
valid mpeg audio file (no cover) and a valid mp4 video file, with the
compensating delete succeeding. -/
theorem C8_witness :
    ((createTrack ⟨[], [], [], 0, 0⟩ 4 "Song" (some ⟨true, "audio/mpeg", 100⟩)
        none true false).2 = .error (.appErr "Failed to create track" 500) ∧
      (createTrack ⟨[], [], [], 0, 0⟩ 4 "Song" (some ⟨true, "audio/mpeg", 100⟩)
        none true false).1.tracks = (⟨[], [], [], 0, 0⟩ : StoreState).tracks ∧
      ((none : Option UploadFile) = none →
        (createTrack ⟨[], [], [], 0, 0⟩ 4 "Song" (some ⟨true, "audio/mpeg", 100⟩)
          none true false).1.gatewayLog =
          (⟨[], [], [], 0, 0⟩ : StoreState).gatewayLog ++ [.put 0, .del 0]) ∧
      (∀ c, (none : Option UploadFile) = some c →
        (createTrack ⟨[], [], [], 0, 0⟩ 4 "Song" (some ⟨true, "audio/mpeg", 100⟩)
          (some c) true false).1.gatewayLog =
          (⟨[], [], [], 0, 0⟩ : StoreState).gatewayLog ++ [.put 0, .put 1,
            .del 0, .del 1])) ∧
    ((createReel ⟨[], [], [], 0, 0⟩ 4 (some ⟨true, "video/mp4", 100⟩)
        true false).2 = .error (.appErr "Failed to create reel" 500) ∧
      (createReel ⟨[], [], [], 0, 0⟩ 4 (some ⟨true, "video/mp4", 100⟩)
        true false).1.reels = (⟨[], [], [], 0, 0⟩ : StoreState).reels ∧
      (createReel ⟨[], [], [], 0, 0⟩ 4 (some ⟨true, "video/mp4", 100⟩)
        true false).1.gatewayLog =
        (⟨[], [], [], 0, 0⟩ : StoreState).gatewayLog ++ [.put 0, .del 0]) :=
  C8_upload_compensation ⟨[], [], [], 0, 0⟩ 4 "Song" ⟨true, "audio/mpeg", 100⟩
    none ⟨true, "video/mp4", 100⟩ false (by decide) rfl
    (by intro c hc; cases hc) rfl

/-- Helper: the trigger only touches counter columns, never the `likes`
table. -/
lemma applyLikeTrigger_likes (s : LikeState) (ty : String) (cid : Nat) (d : Int) :
    (applyLikeTrigger s ty cid d).likes = s.likes := by
  unfold applyLikeTrigger
  split
  · rfl
  · split
    · rfl
    · rfl

/-- Helper: the trigger does not advance the primary-key counter. -/
lemma applyLikeTrigger_nextLikeId (s : LikeState) (ty : String) (cid : Nat) (d : Int) :
    (applyLikeTrigger s ty cid d).nextLikeId = s.nextLikeId := by
  unfold applyLikeTrigger
  split
  · rfl
  · split
    · rfl
    · rfl

/-- Helper: the trigger on a track-typed row bumps the tracks table. -/
lemma applyLikeTrigger_track (s : LikeState) (cid : Nat) (d : Int) :
    applyLikeTrigger s "track" cid d = { s with tracks := bumpCount s.tracks cid d } :=
  rfl

/-- Helper: the trigger on a reel-typed row bumps the reels table. -/
lemma applyLikeTrigger_reel (s : LikeState) (cid : Nat) (d : Int) :
    applyLikeTrigger s "reel" cid d = { s with reels := bumpCount s.reels cid d } :=
  rfl

/-- Helper: filtering a duplicate-free-keyed list for one present key
yields exactly that element. -/
lemma filter_key_singleton {α κ : Type} [DecidableEq κ] (key : α → κ) (l : List α)
    (a : α) (ha : a ∈ l) (hnd : (l.map key).Nodup) :
    l.filter (fun x => decide (key x = key a)) = [a] := by
  induction l with
  | nil => cases ha
  | cons x xs ih =>
    simp only [List.map_cons, List.nodup_cons] at hnd
    by_cases hx : key x = key a
    · have hxa : x = a := by
        rcases List.mem_cons.1 ha with h | h
        · exact h.symm
        · exact absurd (hx ▸ List.mem_map_of_mem key h) hnd.1
      have hnil : xs.filter (fun y => decide (key y = key a)) = [] := by
        rw [List.filter_eq_nil_iff]
        intro b hb
        simp only [decide_eq_true_eq]
        intro hkey
        exact hnd.1 (by rw [hx, ← hkey]; exact List.mem_map_of_mem key hb)
      simp [List.filter_cons, hx, hnil, hxa]
    · have ha' : a ∈ xs := by
        rcases List.mem_cons.1 ha with h | h
        · exact absurd (h ▸ rfl) hx
        · exact h
      simp only [List.filter_cons, decide_eq_true_eq, hx, if_false, ite_false]
      exact ih ha' hnd.2

/-- Helper: appending one like row changes the matching-row count by one
exactly when the row matches. -/
lemma likeRowCount_append (l : List LikeRow) (r : LikeRow) (ty : String) (cid : Nat) :
    likeRowCount (l ++ [r]) ty cid =
      likeRowCount l ty cid +
        (if r.contentType = ty ∧ r.contentId = cid then 1 else 0) := by
  unfold likeRowCount
  rw [List.filter_append, List.length_append]
  congr 1
  by_cases h : r.contentType = ty ∧ r.contentId = cid
  · simp [h]
  · simp [h]

/-- Helper: removing one present row (by its unique primary key) lowers the
matching-row count by one exactly when the row matches. -/
lemma likeRowCount_remove (l : List LikeRow) (a : LikeRow) (ha : a ∈ l)
    (hnd : (l.map LikeRow.id).Nodup) (ty : String) (cid : Nat) :
    likeRowCount l ty cid =
      likeRowCount (l.filter (fun x => !decide (x.id = a.id))) ty cid +
        (if a.contentType = ty ∧ a.contentId = cid then 1 else 0) := by
  have hperm : (l.filter (fun x => decide (x.id = a.id)) ++
      l.filter (fun x => !decide (x.id = a.id))).Perm l :=
    List.filter_append_perm _ l
  have hsing : l.filter (fun x => decide (x.id = a.id)) = [a] :=
    filter_key_singleton LikeRow.id l a ha hnd
  have hcount : likeRowCount l ty cid =
      likeRowCount ([a] ++ l.filter (fun x => !decide (x.id = a.id))) ty cid := by
    unfold likeRowCount
    rw [← hsing]
    exact ((hperm.filter _).length_eq).symm
  rw [hcount]
  unfold likeRowCount
  rw [List.filter_append, List.length_append]
  rw [Nat.add_comm]
  congr 1
  by_cases h : a.contentType = ty ∧ a.contentId = cid
  · simp [h]
  · simp [h]

/-- Helper: bumping a counter id that is not present changes nothing. -/
lemma bumpCount_of_not_mem (rows : List ContentCounter) (cid : Nat) (d : Int)
    (h : ∀ c ∈ rows, c.id ≠ cid) : bumpCount rows cid d = rows := by
  unfold bumpCount
  conv_rhs => rw [← List.map_id rows]
  apply List.map_congr_left
  intro c hc
  simp [h c hc]

/-- Helper: unfolding of the insert branch of `toggleLike`. -/
lemma toggleLike_insert (st : LikeState) (u : Nat) (ty : String) (cid : Nat)
    (hty : ty = "track" ∨ ty = "reel")
    (hnone : st.likes.find? (fun l =>
      decide (l.userId = u ∧ l.contentType = ty ∧ l.contentId = cid)) = none) :
    toggleLike st u ty cid =
      (applyLikeTrigger
        { st with likes := st.likes ++ [⟨st.nextLikeId, u, ty, cid⟩],
                  nextLikeId := st.nextLikeId + 1 } ty cid 1, .ok true) := by
  have hty' : ¬ (ty ≠ "track" ∧ ty ≠ "reel") := by
    rcases hty with h | h <;> simp [h]
  unfold toggleLike
  rw [if_neg hty', hnone]
  rfl

/-- Helper: unfolding of the delete branch of `toggleLike` under
primary-key uniqueness. -/
lemma toggleLike_delete (st : LikeState) (u : Nat) (ty : String) (cid : Nat)
    (ex : LikeRow) (hty : ty = "track" ∨ ty = "reel")
    (hsome : st.likes.find? (fun l =>
      decide (l.userId = u ∧ l.contentType = ty ∧ l.contentId = cid)) = some ex)
    (hnd : (st.likes.map LikeRow.id).Nodup) :
    toggleLike st u ty cid =
      (applyLikeTrigger
        { st with likes := st.likes.filter (fun l => !decide (l.id = ex.id)) }
        ex.contentType ex.contentId (-1), .ok false) := by
  have hty' : ¬ (ty ≠ "track" ∧ ty ≠ "reel") := by
    rcases hty with h | h <;> simp [h]
  have hmem := List.mem_of_find?_eq_some hsome
  have hsing : st.likes.filter (fun l => decide (l.id = ex.id)) = [ex] :=
    filter_key_singleton LikeRow.id st.likes ex hmem hnd
  unfold toggleLike
  rw [if_neg hty', hsome]
  show (deleteLikeById st ex.id, (Except.ok false : Except JsError Bool)) = _
  simp only [deleteLikeById]
  rw [hsing]
  rfl

/-- Helper: one toggle preserves well-formedness and the like-count
invariant. -/
lemma toggleLike_preserves (st : LikeState) (u : Nat) (ty : String) (cid : Nat)
    (hwf : LikeWF st) (hinv : LikeInvariant st) :
    LikeWF (toggleLike st u ty cid).1 ∧ LikeInvariant (toggleLike st u ty cid).1 := by
  obtain ⟨hids, hbound, hpairs⟩ := hwf
  by_cases hty : ty ≠ "track" ∧ ty ≠ "reel"
  · unfold toggleLike
    rw [if_pos hty]
    exact ⟨⟨hids, hbound, hpairs⟩, hinv⟩
  · have htyor : ty = "track" ∨ ty = "reel" := by tauto
    cases hfind : st.likes.find? (fun l =>
        decide (l.userId = u ∧ l.contentType = ty ∧ l.contentId = cid)) with
    | none =>
      rw [toggleLike_insert st u ty cid htyor hfind]
      have hnotin := List.find?_eq_none.1 hfind
      constructor
      · refine ⟨?_, ?_, ?_⟩
        · rw [applyLikeTrigger_likes]
          simp only [List.map_append, List.map_cons, List.map_nil]
          rw [List.nodup_append]
          refine ⟨hids, List.nodup_singleton _, ?_⟩
          intro x hx hx'
          simp only [List.mem_singleton] at hx'
          obtain ⟨l, hl, hlid⟩ := List.mem_map.1 hx
          subst hx'
          exact absurd (hlid ▸ hbound l hl) (lt_irrefl _)
        · intro l hl
          rw [applyLikeTrigger_likes] at hl
          rw [applyLikeTrigger_nextLikeId]
          rcases List.mem_append.1 hl with h | h
          · exact Nat.lt_succ_of_lt (hbound l h)
          · simp only [List.mem_singleton] at h
            subst h
            exact Nat.lt_succ_self _
        · rw [applyLikeTrigger_likes]
          simp only [List.map_append, List.map_cons, List.map_nil]
          rw [List.nodup_append]
          refine ⟨hpairs, List.nodup_singleton _, ?_⟩
          intro x hx hx'
          simp only [List.mem_singleton] at hx'
          obtain ⟨l, hl, hlp⟩ := List.mem_map.1 hx
          subst hx'
          have hl' := hnotin l hl
          simp only [decide_eq_true_eq] at hl'
          have h1 : l.userId = u := congrArg Prod.fst hlp
          have h2 : l.contentType = ty := congrArg (fun p => p.2.1) hlp
          have h3 : l.contentId = cid := congrArg (fun p => p.2.2) hlp
          exact hl' ⟨h1, h2, h3⟩
      · rcases htyor with h | h
        · subst h
          rw [applyLikeTrigger_track]
          constructor
          · intro t' ht'
            simp only [bumpCount] at ht'
            obtain ⟨t, ht, rfl⟩ := List.mem_map.1 ht'
            have hbase := hinv.1 t ht
            by_cases htc : t.id = cid
            · rw [htc] at hbase
              simp [likeRowCount_append, htc, hbase]
            · have htc' : cid ≠ t.id := fun hh => htc hh.symm
              simp [likeRowCount_append, htc, htc', hbase]
          · intro r hr
            have hbase := hinv.2 r hr
            simp [likeRowCount_append, hbase]
        · subst h
          rw [applyLikeTrigger_reel]
          constructor
          · intro t ht
            have hbase := hinv.1 t ht
            simp [likeRowCount_append, hbase]
          · intro r' hr'
            simp only [bumpCount] at hr'
            obtain ⟨r, hr, rfl⟩ := List.mem_map.1 hr'
            have hbase := hinv.2 r hr
            by_cases hrc : r.id = cid
            · rw [hrc] at hbase
              simp [likeRowCount_append, hrc, hbase]
            · have hrc' : cid ≠ r.id := fun hh => hrc hh.symm
              simp [likeRowCount_append, hrc, hrc', hbase]
    | some ex =>
      rw [toggleLike_delete st u ty cid ex htyor hfind hids]
      have hmem := List.mem_of_find?_eq_some hfind
      have hpred := List.find?_some hfind
      simp only [decide_eq_true_eq] at hpred
      obtain ⟨hpu, hpt, hpc⟩ := hpred
      have hsub : List.Sublist (st.likes.filter (fun l => !decide (l.id = ex.id)))
          st.likes := List.filter_sublist _
      constructor
      · refine ⟨?_, ?_, ?_⟩
        · rw [applyLikeTrigger_likes]
          exact List.Nodup.sublist (hsub.map LikeRow.id) hids
        · intro l hl
          rw [applyLikeTrigger_likes] at hl
          rw [applyLikeTrigger_nextLikeId]
          exact hbound l (List.mem_filter.1 hl).1
        · rw [applyLikeTrigger_likes]
          exact List.Nodup.sublist
            (hsub.map (fun l => (l.userId, l.contentType, l.contentId))) hpairs
      · rcases htyor with h | h
        · subst h
          rw [hpt, hpc, applyLikeTrigger_track]
          constructor
          · intro t' ht'
            simp only [bumpCount] at ht'
            obtain ⟨t, ht, rfl⟩ := List.mem_map.1 ht'
            have hbase := hinv.1 t ht
            have hrem := likeRowCount_remove st.likes ex hmem hids "track" t.id
            by_cases htc : t.id = cid
            · rw [htc] at hbase hrem
              rw [if_pos ⟨hpt, hpc⟩] at hrem
              simp only [htc, ite_true]
              omega
            · have hnm : ¬ (ex.contentType = "track" ∧ ex.contentId = t.id) := by
                rintro ⟨-, h2⟩
                exact htc (by rw [← hpc, h2])
              rw [if_neg hnm] at hrem
              simp only [htc, ite_false]
              omega
          · intro r hr
            have hbase := hinv.2 r hr
            have hrem := likeRowCount_remove st.likes ex hmem hids "reel" r.id
            have hnm : ¬ (ex.contentType = "reel" ∧ ex.contentId = r.id) := by
              rintro ⟨h1, -⟩
              rw [hpt] at h1
              exact absurd h1 (by decide)
            rw [if_neg hnm] at hrem
            simp
            omega
        · subst h
          rw [hpt, hpc, applyLikeTrigger_reel]
          constructor
          · intro t ht
            have hbase := hinv.1 t ht
            have hrem := likeRowCount_remove st.likes ex hmem hids "track" t.id
            have hnm : ¬ (ex.contentType = "track" ∧ ex.contentId = t.id) := by
              rintro ⟨h1, -⟩
              rw [hpt] at h1
              exact absurd h1 (by decide)
            rw [if_neg hnm] at hrem
            simp
            omega
          · intro r' hr'
            simp only [bumpCount] at hr'
            obtain ⟨r, hr, rfl⟩ := List.mem_map.1 hr'
            have hbase := hinv.2 r hr
            have hrem := likeRowCount_remove st.likes ex hmem hids "reel" r.id
            by_cases hrc : r.id = cid
            · rw [hrc] at hbase hrem
              rw [if_pos ⟨hpt, hpc⟩] at hrem
              simp only [hrc, ite_true]
              omega
            · have hnm : ¬ (ex.contentType = "reel" ∧ ex.contentId = r.id) := by
                rintro ⟨-, h2⟩
                exact hrc (by rw [← hpc, h2])
              rw [if_neg hnm] at hrem
              simp only [hrc, ite_false]
              omega


/-- Helper: well-formedness and the invariant are preserved by any toggle
sequence. -/
lemma runToggles_preserves (ops : List (Nat × String × Nat)) (st : LikeState)
    (hwf : LikeWF st) (hinv : LikeInvariant st) :
    LikeWF (runToggles st ops) ∧ LikeInvariant (runToggles st ops) := by
  induction ops generalizing st with
  | nil => exact ⟨hwf, hinv⟩
  | cons op rest ih =>
    have h := toggleLike_preserves st op.1 op.2.1 op.2.2 hwf hinv
    exact ih ((toggleLike st op.1 op.2.1 op.2.2).1) h.1 h.2

/-- C2: after any sequence of toggles from a well-formed state satisfying
the like invariant, every content item's cached likeCount still equals the
number of matching Like rows; and a single toggle on a valid content type
deletes the existing Like row reporting liked=false (row count down by
one), or inserts one reporting liked=true (row count up by one), with the
trigger adjusting the cached counter in the same logical operation (the
preserved invariant). -/
theorem C2_like_count_invariant (st : LikeState) (ops : List (Nat × String × Nat))
    (hwf : LikeWF st) (hinv : LikeInvariant st) :
    LikeInvariant (runToggles st ops) ∧
    (∀ u cid, ∀ ty : String, ty = "track" ∨ ty = "reel" →
      ((∃ l ∈ st.likes, l.userId = u ∧ l.contentType = ty ∧ l.contentId = cid) →
        (toggleLike st u ty cid).2 = .ok false ∧
        likeRowCount st.likes ty cid =
          likeRowCount (toggleLike st u ty cid).1.likes ty cid + 1) ∧
      ((∀ l ∈ st.likes, ¬ (l.userId = u ∧ l.contentType = ty ∧ l.contentId = cid)) →
        (toggleLike st u ty cid).2 = .ok true ∧
        likeRowCount (toggleLike st u ty cid).1.likes ty cid =
          likeRowCount st.likes ty cid + 1)) := by
  refine ⟨(runToggles_preserves ops st hwf hinv).2, ?_⟩
  intro u cid ty htyor
  constructor
  · rintro ⟨l0, hl0, hprops⟩
    have hsome : (st.likes.find? (fun l =>
        decide (l.userId = u ∧ l.contentType = ty ∧ l.contentId = cid))).isSome := by
      rw [List.find?_isSome]
      exact ⟨l0, hl0, by simpa using hprops⟩
    cases hfind : st.likes.find? (fun l =>
        decide (l.userId = u ∧ l.contentType = ty ∧ l.contentId = cid)) with
    | none => rw [hfind] at hsome; cases hsome
    | some ex =>
      rw [toggleLike_delete st u ty cid ex htyor hfind hwf.1]
      have hpred := List.find?_some hfind
      simp only [decide_eq_true_eq] at hpred
      have hmem := List.mem_of_find?_eq_some hfind
      refine ⟨rfl, ?_⟩
      have hrem := likeRowCount_remove st.likes ex hmem hwf.1 ty cid
      rw [if_pos ⟨hpred.2.1, hpred.2.2⟩] at hrem
      simpa [applyLikeTrigger_likes] using hrem
  · intro hnomem
    have hfind : st.likes.find? (fun l =>
        decide (l.userId = u ∧ l.contentType = ty ∧ l.contentId = cid)) = none :=
      List.find?_eq_none.2 (fun l hl => by simpa using hnomem l hl)
    rw [toggleLike_insert st u ty cid htyor hfind]
    refine ⟨rfl, ?_⟩
    simp only [applyLikeTrigger_likes]
    rw [likeRowCount_append]
    rw [if_pos ⟨rfl, rfl⟩]

/-- C2 witness: a three-toggle sequence (like by user 1, like by user 2,
unlike by user 1) against one track keeps the invariant, and the first
toggle on the fresh state reports liked=true with the row count up by
one. -/
theorem C2_witness :
    LikeInvariant (runToggles C2state [(1, "track", 5), (2, "track", 5), (1, "track", 5)]) ∧
    (toggleLike C2state 1 "track" 5).2 = .ok true ∧
    likeRowCount (toggleLike C2state 1 "track" 5).1.likes "track" 5 =
      likeRowCount C2state.likes "track" 5 + 1 := by
  have h := C2_like_count_invariant C2state [(1, "track", 5), (2, "track", 5), (1, "track", 5)]
    (by refine ⟨?_, ?_, ?_⟩ <;> simp [C2state, LikeWF])
    (by constructor
        · intro x hx
          simp [C2state] at hx
          simp [hx, C2state, likeRowCount]
        · intro x hx
          simp [C2state] at hx)
  have h2 := (h.2 1 5 "track" (Or.inl rfl)).2 (by intro l hl; simp [C2state] at hl)
  exact ⟨h.1, h2.1, h2.2⟩

/-- C10: toggling a like on a content id with no corresponding track or
reel row does not fail NotFound — it succeeds, inserts the Like row for
the nonexistent content (no foreign key, no existence check), reports
liked=true, and leaves every counter untouched. -/
theorem C10_toggle_no_content_check (st : LikeState) (u cid : Nat) (ty : String)
    (hty : ty = "track" ∨ ty = "reel")
    (htr : ∀ t ∈ st.tracks, t.id ≠ cid)
    (hre : ∀ r ∈ st.reels, r.id ≠ cid)
    (hno : ∀ l ∈ st.likes, ¬ (l.userId = u ∧ l.contentType = ty ∧ l.contentId = cid)) :
    (toggleLike st u ty cid).2 = .ok true ∧
    (∀ m, (toggleLike st u ty cid).2 ≠ .error (.notFoundErr m)) ∧
    (toggleLike st u ty cid).1.likes =
      st.likes ++ [⟨st.nextLikeId, u, ty, cid⟩] ∧
    (toggleLike st u ty cid).1.tracks = st.tracks ∧
    (toggleLike st u ty cid).1.reels = st.reels := by
  have hfind : st.likes.find? (fun l =>
      decide (l.userId = u ∧ l.contentType = ty ∧ l.contentId = cid)) = none :=
    List.find?_eq_none.2 (fun l hl => by simpa using hno l hl)
  rw [toggleLike_insert st u ty cid hty hfind]
  refine ⟨rfl, ?_, ?_, ?_, ?_⟩
  · intro m hm
    cases hm
  · rw [applyLikeTrigger_likes]
  · rcases hty with h | h <;> subst h
    · rw [applyLikeTrigger_track]
      show bumpCount st.tracks cid 1 = st.tracks
      exact bumpCount_of_not_mem st.tracks cid 1 htr
    · rw [applyLikeTrigger_reel]
  · rcases hty with h | h <;> subst h
    · rw [applyLikeTrigger_track]
    · rw [applyLikeTrigger_reel]
      show bumpCount st.reels cid 1 = st.reels
      exact bumpCount_of_not_mem st.reels cid 1 hre

/-- C10 witness: on an empty store, toggling user 1's like of nonexistent
track 99 succeeds with liked=true and inserts the row. -/
theorem C10_witness :
    (toggleLike ⟨[], [], [], 0⟩ 1 "track" 99).2 = .ok true ∧
    (∀ m, (toggleLike ⟨[], [], [], 0⟩ 1 "track" 99).2 ≠ .error (.notFoundErr m)) ∧
    (toggleLike ⟨[], [], [], 0⟩ 1 "track" 99).1.likes =
      (⟨[], [], [], 0⟩ : LikeState).likes ++
        [⟨(⟨[], [], [], 0⟩ : LikeState).nextLikeId, 1, "track", 99⟩] ∧
    (toggleLike ⟨[], [], [], 0⟩ 1 "track" 99).1.tracks =
      (⟨[], [], [], 0⟩ : LikeState).tracks ∧
    (toggleLike ⟨[], [], [], 0⟩ 1 "track" 99).1.reels =
      (⟨[], [], [], 0⟩ : LikeState).reels :=
  C10_toggle_no_content_check ⟨[], [], [], 0⟩ 1 99 "track" (Or.inl rfl)
    (by intro t ht; cases ht) (by intro r hr; cases hr) (by intro l hl; cases hl)

/-- Helper: in a list strictly sorted by creation time, membership in the
first `k` elements is exactly membership with fewer than `k` strictly
earlier elements. -/
lemma mem_take_iff_rank {l : List AccountRow}
    (hs : l.Pairwise (fun a b => a.createdAt < b.createdAt)) (k : Nat)
    (u : AccountRow) :
    u ∈ l.take k ↔ u ∈ l ∧
      (l.filter (fun v => decide (v.createdAt < u.createdAt))).length < k := by
  induction l generalizing k with
  | nil => simp
  | cons x xs ih =>
    rcases List.pairwise_cons.1 hs with ⟨hx, hxs⟩
    cases k with
    | zero => simp
    | succ j =>
      by_cases hux : u = x
      · subst hux
        have hnil : xs.filter (fun v => decide (v.createdAt < u.createdAt)) = [] := by
          rw [List.filter_eq_nil_iff]
          intro b hb
          simp only [decide_eq_true_eq]
          exact Nat.not_lt.2 (Nat.le_of_lt (hx b hb))
        simp [List.take_succ_cons, List.filter_cons, hnil]
      · simp only [List.take_succ_cons, List.mem_cons, hux, false_or]
        rw [ih hxs j]
        constructor
        · rintro ⟨hmemxs, hrank⟩
          refine ⟨hmemxs, ?_⟩
          have hxu : x.createdAt < u.createdAt := hx u hmemxs
          rw [List.filter_cons]
          simp [hxu]
          omega
        · rintro ⟨hmem, hrank⟩
          refine ⟨hmem, ?_⟩
          have hxu : x.createdAt < u.createdAt := hx u hmem
          rw [List.filter_cons] at hrank
          simp [hxu] at hrank
          omega

/-- Helper: a sort by non-strict creation-time order is strictly increasing
once creation times are distinct. -/
lemma sorted_strict_of_nodup {l : List AccountRow}
    (hs : l.Pairwise leCreated) (hnd : (l.map AccountRow.createdAt).Nodup) :
    l.Pairwise (fun a b => a.createdAt < b.createdAt) := by
  have hne : l.Pairwise (fun a b => a.createdAt ≠ b.createdAt) :=
    List.pairwise_map.1 hnd
  exact (hs.and hne).imp (fun h => lt_of_le_of_ne h.1 h.2)

/-- Helper: the empty-selection branch of `batchApproveUsers`. -/
lemma batchApprove_empty (users : List AccountRow) (k now : Nat)
    (hk1 : 1 ≤ k) (hk2 : k ≤ 100) (hz : (batchSelect users k).length = 0) :
    batchApproveUsers users k now = .ok (users, 0) := by
  unfold batchApproveUsers batchApproveUsersWith
  rw [if_neg (by omega), if_neg (by omega), if_pos hz]

/-- Helper: the non-empty branch of `batchApproveUsers`. -/
lemma batchApprove_ok (users : List AccountRow) (k now : Nat)
    (hk1 : 1 ≤ k) (hk2 : k ≤ 100) (hne : (batchSelect users k).length ≠ 0) :
    batchApproveUsers users k now =
      .ok (batchUpdate users ((batchSelect users k).map AccountRow.id) now,
        (users.filter (fun u =>
          decide (u.id ∈ (batchSelect users k).map AccountRow.id))).length) := by
  unfold batchApproveUsers batchApproveUsersWith
  rw [if_neg (by omega), if_neg (by omega), if_neg hne]

/-- C4 counterexample: the batch write is not the conditional
waitlisted-to-active transition.  Account 0 is waitlisted when the batch's
select runs, but banned by the time its update lands; the batch update
(`where id in (...)`, no status guard) sets it active anyway, while the
conditional set-operation `approveUsers` applies to the same state leaves
it banned. -/
theorem C4_counterexample :
    batchApproveUsersWith [⟨0, .listener, .waitlisted, none, 0⟩]
      [⟨0, .listener, .banned, none, 0⟩] 1 5 =
      .ok ([⟨0, .listener, .active, some 5, 0⟩], 1) ∧
    conditionalApproveUsers [⟨0, .listener, .banned, none, 0⟩] [0] 5 =
      [⟨0, .listener, .banned, none, 0⟩] ∧
    ([⟨0, .listener, .active, some 5, 0⟩] : List AccountRow) ≠
      [⟨0, .listener, .banned, none, 0⟩] := by
  refine ⟨rfl, rfl, by decide⟩

/-- C4 (amended): in an uninterleaved execution, for N waitlisted accounts
with distinct createdAt and 1 ≤ k ≤ 100, the batch approval succeeds,
reports min(k, N), activates exactly the k earliest-created waitlisted
accounts (stamping approvedAt) and leaves every other account unchanged —
but the write it applies is an unconditional `status=active` update on the
selected ids, not the status-guarded conditional transition of the
single-account path. -/
theorem C4_batch_fifo (users : List AccountRow) (k now : Nat)
    (hk1 : 1 ≤ k) (hk2 : k ≤ 100)
    (hids : (users.map AccountRow.id).Nodup)
    (hca : ((users.filter (fun u => decide (u.status = .waitlisted))).map
      AccountRow.createdAt).Nodup) :
    ∃ users',
      batchApproveUsers users k now =
        .ok (users',
          min k (users.filter (fun u => decide (u.status = .waitlisted))).length) ∧
      users'.length = users.length ∧
      ∀ i u, users.get? i = some u →
        users'.get? i = some
          (if u.status = .waitlisted ∧ waitlistRank users u < k
           then activateRow u now else u) := by
  have husers : users.Nodup := hids.of_map
  have hwsnd : (users.filter (fun u => decide (u.status = .waitlisted))).Nodup :=
    List.Nodup.sublist (List.filter_sublist _) husers
  have hperm : ((users.filter (fun u =>
      decide (u.status = .waitlisted))).insertionSort leCreated).Perm
      (users.filter (fun u => decide (u.status = .waitlisted))) :=
    List.perm_insertionSort leCreated _
  have hsorted := List.sorted_insertionSort leCreated
    (users.filter (fun u => decide (u.status = .waitlisted)))
  have hcas : (((users.filter (fun u =>
      decide (u.status = .waitlisted))).insertionSort leCreated).map
      AccountRow.createdAt).Nodup := (hperm.map AccountRow.createdAt).nodup_iff.2 hca
  have hstrict := sorted_strict_of_nodup hsorted hcas
  have hsnd : ((users.filter (fun u =>
      decide (u.status = .waitlisted))).insertionSort leCreated).Nodup :=
    hperm.nodup_iff.2 hwsnd
  have hselnd : (batchSelect users k).Nodup :=
    List.Nodup.sublist (List.take_sublist k _) hsnd
  have hselsub : ∀ u ∈ batchSelect users k, u ∈ users := by
    intro u hu
    have h1 : u ∈ (users.filter (fun u =>
        decide (u.status = .waitlisted))).insertionSort leCreated :=
      List.mem_of_mem_take hu
    have h2 := hperm.mem_iff.1 h1
    exact (List.mem_filter.1 h2).1
  have hselmem : ∀ u, u ∈ batchSelect users k ↔
      (u ∈ users ∧ u.status = .waitlisted) ∧ waitlistRank users u < k := by
    intro u
    unfold batchSelect
    rw [mem_take_iff_rank hstrict]
    constructor
    · rintro ⟨hu, hr⟩
      have hmemws := hperm.mem_iff.1 hu
      have hcount : (((users.filter (fun u =>
          decide (u.status = .waitlisted))).insertionSort leCreated).filter
            (fun v => decide (v.createdAt < u.createdAt))).length =
          waitlistRank users u := (hperm.filter _).length_eq
      rcases List.mem_filter.1 hmemws with ⟨hmu, hstat⟩
      exact ⟨⟨hmu, by simpa using hstat⟩, by omega⟩
    · rintro ⟨⟨hmu, hstat⟩, hr⟩
      have hmemws : u ∈ users.filter (fun u => decide (u.status = .waitlisted)) :=
        List.mem_filter.2 ⟨hmu, by simpa using hstat⟩
      have hcount : (((users.filter (fun u =>
          decide (u.status = .waitlisted))).insertionSort leCreated).filter
            (fun v => decide (v.createdAt < u.createdAt))).length =
          waitlistRank users u := (hperm.filter _).length_eq
      exact ⟨hperm.mem_iff.2 hmemws, by omega⟩
  have hidchar : ∀ v ∈ users,
      (v.id ∈ (batchSelect users k).map AccountRow.id ↔ v ∈ batchSelect users k) := by
    intro v hv
    constructor
    · intro hid
      obtain ⟨w, hw, hwid⟩ := List.mem_map.1 hid
      have hwu : w ∈ users := hselsub w hw
      have : w = v := List.inj_on_of_nodup_map hids hwu hv hwid
      exact this ▸ hw
    · exact List.mem_map_of_mem AccountRow.id
  by_cases hz : (batchSelect users k).length = 0
  · -- no waitlisted accounts at all (since k ≥ 1)
    have hlen : (batchSelect users k).length =
        min k ((users.filter (fun u =>
          decide (u.status = .waitlisted))).insertionSort leCreated).length :=
      List.length_take _ _
    have hwslen : (users.filter (fun u => decide (u.status = .waitlisted))).length = 0 := by
      have := hperm.length_eq
      omega
    refine ⟨users, ?_, rfl, ?_⟩
    · rw [batchApprove_empty users k now hk1 hk2 hz, hwslen, Nat.min_zero]
    · intro i u hget
      have hu : u ∈ users := List.get?_mem hget
      have hnw : ¬ (u.status = .waitlisted ∧ waitlistRank users u < k) := by
        rintro ⟨hw, -⟩
        have : u ∈ users.filter (fun u => decide (u.status = .waitlisted)) :=
          List.mem_filter.2 ⟨hu, by simpa using hw⟩
        rw [List.length_eq_zero] at hwslen
        rw [hwslen] at this
        cases this
      rw [if_neg hnw]
      exact hget
  · have hreported : (users.filter (fun u =>
        decide (u.id ∈ (batchSelect users k).map AccountRow.id))).length =
        min k (users.filter (fun u => decide (u.status = .waitlisted))).length := by
      have hfnd : (users.filter (fun u =>
          decide (u.id ∈ (batchSelect users k).map AccountRow.id))).Nodup :=
        List.Nodup.sublist (List.filter_sublist _) husers
      have hfilmem : ∀ v, v ∈ users.filter (fun u =>
          decide (u.id ∈ (batchSelect users k).map AccountRow.id)) ↔
          v ∈ batchSelect users k := by
        intro v
        rw [List.mem_filter]
        constructor
        · rintro ⟨hv, hvid⟩
          exact (hidchar v hv).1 (by simpa using hvid)
        · intro hv
          have hvu := hselsub v hv
          exact ⟨hvu, by simpa using (hidchar v hvu).2 hv⟩
      have hpermf : (users.filter (fun u =>
          decide (u.id ∈ (batchSelect users k).map AccountRow.id))).Perm
          (batchSelect users k) :=
        (List.perm_ext_iff_of_nodup hfnd hselnd).2 hfilmem
      have hlen2 : (batchSelect users k).length =
          min k (users.filter (fun u => decide (u.status = .waitlisted))).length := by
        have h1 : (batchSelect users k).length =
            min k ((users.filter (fun u =>
              decide (u.status = .waitlisted))).insertionSort leCreated).length :=
          List.length_take _ _
        have h2 := hperm.length_eq
        omega
      rw [hpermf.length_eq, hlen2]
    refine ⟨batchUpdate users ((batchSelect users k).map AccountRow.id) now, ?_, ?_, ?_⟩
    · rw [batchApprove_ok users k now hk1 hk2 hz, hreported]
    · exact List.length_map _ _
    · intro i u hget
      have hu : u ∈ users := List.get?_mem hget
      unfold batchUpdate
      rw [List.get?_eq_getElem?] at hget ⊢
      rw [List.getElem?_map, hget, Option.map_some']
      congr 1
      by_cases hc : u ∈ batchSelect users k
      · rw [if_pos ((hidchar u hu).2 hc)]
        rcases (hselmem u).1 hc with ⟨⟨-, hw⟩, hr⟩
        rw [if_pos ⟨hw, hr⟩]
      · rw [if_neg (fun hh => hc ((hidchar u hu).1 hh))]
        have hnw : ¬ (u.status = .waitlisted ∧ waitlistRank users u < k) := by
          rintro ⟨hw, hr⟩
          exact hc ((hselmem u).2 ⟨⟨hu, hw⟩, hr⟩)
        rw [if_neg hnw]

/-- C4 witness: the amended claim on four concrete accounts (three
waitlisted, created at 10, 25, 30) with k = 2: the two earliest (ids 2 and
4) are activated, the later waitlisted account and the active account are
untouched, and the reported count is min(2, 3) = 2. -/
theorem C4_witness :
    ∃ users',
      batchApproveUsers C4users 2 5 =
        .ok (users',
          min 2 (C4users.filter (fun u => decide (u.status = .waitlisted))).length) ∧
      users'.length = C4users.length ∧
      ∀ i u, C4users.get? i = some u →
        users'.get? i = some
          (if u.status = .waitlisted ∧ waitlistRank C4users u < 2
           then activateRow u 5 else u) :=
  C4_batch_fifo C4users 2 5 (by decide) (by decide) (by decide) (by decide)

end MusicCombinators
